import Mathlib

/-!
Shallow embedding of `src/backend/main.py` (MACE EU content manager backend).

The backend is a Flask app with three routes: a health check, `add_post`
(`POST /add-post`) and `delete_post` (`POST /delete-post`).  Both mutating
routes fetch a JSON array of post records from a GitHub-hosted file,
mutate the array in memory and write the whole array back.

Modelling choices:
- server-generated values (`uuid.uuid4()`, `uuid.uuid4().hex`, the current
  date string) are passed in explicitly as a `Gen` record;
- the GitHub fetch of the store file is passed in as
  `Option (List Post × String)` — `none` models the `except:` branch of
  the `try` around `repo.get_contents` / `json.loads` (file absent or
  malformed content), `some (l, sha)` a successful fetch and parse;
- the write back to GitHub is recorded as a `StoreWrite` value
  (`create` models `repo.create_file`, `update` models `repo.update_file`
  with the fetched sha);
- a media upload (`repo.create_file` of the banner) is recorded as the
  repo path that would be written, `none` when the upload is skipped;
- HTTP responses are recorded as a numeric status plus the relevant body
  parts used by the claims.
-/

namespace MaceEU

/-- `ALLOWED_EXTENSIONS = {'png', 'jpg', 'jpeg', 'gif', 'pdf'}` from the
source (modelled as a list; membership is what matters). -/
def ALLOWED_EXTENSIONS : List String := ["png", "jpg", "jpeg", "gif", "pdf"]

/-- The characters after the last `'.'` of a name:
`some` of `filename.rsplit('.', 1)[1]` when the name contains a dot
(`'.' in filename`), `none` otherwise. -/
def extAfterLastDot : List Char → Option (List Char)
  | [] => none
  | c :: rest =>
      match extAfterLastDot rest with
      | some e => some e
      | none => if c = '.' then some rest else none

/-- `str.lower()` restricted to ASCII (all allow-list comparisons are
ASCII); agrees with Python's `lower` on every ASCII extension. -/
def lowerStr (cs : List Char) : List Char :=
  cs.map Char.toLower

/-- `allowed_file(filename)` from the source:
`'.' in filename and filename.rsplit('.', 1)[1].lower() in ALLOWED_EXTENSIONS`.
`extAfterLastDot` is `none` exactly when `'.' not in filename`. -/
def allowed_file (filename : String) : Bool :=
  match extAfterLastDot filename.data with
  | some ext => ALLOWED_EXTENSIONS.contains (String.mk (lowerStr ext))
  | none => false

/-- The fixed fallback banner used when no file was uploaded
(`banner_full_url = "https://images.unsplash.com/photo-1504052434569-70ad5836ab65"`). -/
def FALLBACK_BANNER : String :=
  "https://images.unsplash.com/photo-1504052434569-70ad5836ab65"

/-- Configuration after the start-up normalisation in the source: both
`UPLOAD_FOLDER` and `WEBSITE_URL` are suffixed with `'/'` when missing. -/
structure Config where
  websiteUrl : String
  uploadFolder : String
  deriving Repr, DecidableEq

/-- The start-up fix applied to `UPLOAD_FOLDER` (and to a non-empty
`WEBSITE_URL`): append a trailing slash when absent
(`endswith('/')` is: the last character is `'/'`). -/
def ensureSlash (s : String) : String :=
  if s.data.getLast? = some '/' then s else s ++ "/"

/-- A post record as built by `add_post` (step 5 of the handler).
`content` and `ptype` are `Option String` because `request.form.get`
returns `None` when the field is absent (serialised as JSON `null`);
`ptype` models the `type` key. -/
structure Post where
  id : String
  title : String
  author : String
  date : String
  ptype : Option String
  banner : String
  content : Option String
  mediaType : String
  mediaUrl : String
  deriving Repr, DecidableEq

/-- Server-generated values consumed by one `add_post` request:
`postId = str(uuid.uuid4())`, `fileHex = uuid.uuid4().hex`,
`date = datetime.now().strftime("%b %d, %Y")`. -/
structure Gen where
  postId : String
  fileHex : String
  date : String
  deriving Repr, DecidableEq

/-- The multipart form of an `add-post` request. `request.form.get(k)` is
`Option String`; `mediaUrl` keeps the option so that a supplied value is
distinguishable from the `''` default; `file` is the filename of the
attached file when `'file' in request.files`. -/
structure AddReq where
  title : Option String
  author : Option String
  content : Option String
  ptype : Option String
  mediaUrl : Option String
  file : Option String
  deriving Repr, DecidableEq

/-- The write performed on the store file: `create` models
`repo.create_file(JSON_PATH, …)`, `update` models
`repo.update_file(JSON_PATH, …, sha)`. -/
inductive StoreWrite where
  | create (content : List Post)
  | update (content : List Post) (sha : String)
  deriving Repr, DecidableEq

/-- The array a `StoreWrite` serialises and writes back. -/
def StoreWrite.content : StoreWrite → List Post
  | .create l => l
  | .update l _ => l

/-- Outcome of an `add_post` request: HTTP status, the repo path of the
uploaded banner file (if any), the write performed on the store file
(if any), and the post record that was built (if any). -/
structure AddResult where
  status : Nat
  mediaWrite : Option String
  storeWrite : Option StoreWrite
  post : Option Post
  deriving Repr, DecidableEq

/-- Step 3 of `add_post`, the upload decision: when a file is attached,
is truthy (`FileStorage.__bool__` is emptiness of the filename) and passes
`allowed_file`, the banner is written to
`repo_path = UPLOAD_FOLDER + uuid.uuid4().hex + '.' + ext` with
`ext = filename.rsplit('.', 1)[1].lower()`; otherwise no upload happens. -/
def uploadPathOf (cfg : Config) (gen : Gen) (file : Option String) : Option String :=
  match file with
  | some filename =>
      if filename ≠ "" ∧ allowed_file filename then
        some (cfg.uploadFolder ++ gen.fileHex ++ "." ++
          String.mk (lowerStr ((extAfterLastDot filename.data).getD [])))
      else none
  | none => none

/-- The banner URL of step 3: `WEBSITE_URL + repo_path` after a successful
upload; the fallback placeholder when `banner_full_url` is still falsy
(`if not banner_full_url`). -/
def bannerUrlOf (cfg : Config) (gen : Gen) (file : Option String) : String :=
  match uploadPathOf cfg gen file with
  | some repoPath =>
      let u := cfg.websiteUrl ++ repoPath
      if u = "" then FALLBACK_BANNER else u
  | none => FALLBACK_BANNER

/-- Step 4 of `add_post`: `(final_media_url, final_media_type)` keyed on
`post_type`; the defaults `("", "none")` survive for `'article'` and for
any unrecognised or absent type. -/
def mediaConfigOf (banner : String) (ptype : Option String) (mediaUrlInput : String) :
    String × String :=
  if ptype = some "image" then (banner, "image")
  else if ptype = some "video" ∨ ptype = some "youtube" then (mediaUrlInput, "youtube")
  else if ptype = some "pdf" then (mediaUrlInput, "pdf")
  else if ptype = some "article" then ("", "none")
  else ("", "none")

/-- Step 5 of `add_post`: the `new_post` dict.  `media_url_input` is
`request.form.get('mediaUrl', '')`. -/
def newPostOf (cfg : Config) (gen : Gen) (req : AddReq) : Post :=
  let banner := bannerUrlOf cfg gen req.file
  let mc := mediaConfigOf banner req.ptype (req.mediaUrl.getD "")
  { id := gen.postId
    title := req.title.getD ""
    author := req.author.getD ""
    date := gen.date
    ptype := req.ptype
    banner := banner
    content := req.content
    mediaType := mc.2
    mediaUrl := mc.1 }

/-- The list the handler mutates: the fetched array on success, `[]` when
the fetch (or parse) raised. -/
def fetchedList (fetched : Option (List Post × String)) : List Post :=
  match fetched with
  | some (l, _) => l
  | none => []

/-- Step 6 of `add_post`: `existing_data.insert(0, new_post)` followed by
`update_file` with the fetched sha when `file_content` is set, else
`create_file` (on the `except:` branch `existing_data = []` and
`file_content = None`, so the created file holds only the new post). -/
def writeOf (p : Post) (fetched : Option (List Post × String)) : StoreWrite :=
  match fetched with
  | some (l, sha) => StoreWrite.update (p :: l) sha
  | none => StoreWrite.create (p :: [])

/-- The `add_post` handler.  `if not title or not author` is the falsy
check on the two `request.form.get` results (absent or empty string);
on the valid path the post is built, prepended to the fetched array
(`existing_data.insert(0, new_post)`) and the whole array written back:
`update_file` with the fetched sha when the fetch succeeded
(`if file_content:`), else `create_file`. -/
def add_post (cfg : Config) (gen : Gen) (req : AddReq)
    (fetched : Option (List Post × String)) : AddResult :=
  if req.title.getD "" = "" ∨ req.author.getD "" = "" then
    { status := 400, mediaWrite := none, storeWrite := none, post := none }
  else
    { status := 200
      mediaWrite := uploadPathOf cfg gen req.file
      storeWrite := some (writeOf (newPostOf cfg gen req) fetched)
      post := some (newPostOf cfg gen req) }

/-- Outcome of a `delete_post` request: HTTP status, the message or error
string of the JSON body, and the write performed on the store file. -/
structure DeleteResult where
  status : Nat
  body : String
  storeWrite : Option StoreWrite
  deriving Repr, DecidableEq

/-- The `delete_post` handler, given a successful fetch of the store file
(`store`, `sha`).  `data.get('id')` is falsy when absent or empty
(`if not post_id` → 400); otherwise every record whose `id` equals
`post_id` is filtered out, 404 when nothing was removed, else the filtered
array is written back with `update_file` and the fetched sha. -/
def delete_post (reqId : Option String) (store : List Post) (sha : String) : DeleteResult :=
  let post_id := reqId.getD ""
  if post_id = "" then
    { status := 400, body := "Post ID is required", storeWrite := none }
  else
    let new_data := store.filter (fun p => p.id != post_id)
    if new_data.length = store.length then
      { status := 404, body := "Post not found", storeWrite := none }
    else
      { status := 200, body := "Post deleted successfully"
        storeWrite := some (.update new_data sha) }

/-! ## Concrete fixtures (used by witnesses and counterexamples) -/

/-- A configuration as normalised at start-up (both URLs slash-suffixed). -/
def cfgW : Config := { websiteUrl := "https://site/", uploadFolder := "gospel-uploads/" }

/-- Concrete server-generated values for one request. -/
def genW : Gen := { postId := "id-1", fileHex := "abc123", date := "Jan 01, 2026" }

/-- A valid article request. -/
def reqArticle : AddReq :=
  { title := some "T", author := some "A", content := some "C",
    ptype := some "article", mediaUrl := none, file := none }

/-- A valid video request with a supplied link. -/
def reqVideo : AddReq :=
  { reqArticle with ptype := some "video", mediaUrl := some "https://youtu.be/x" }

/-- A valid image request with an allow-listed file attached. -/
def reqImage : AddReq :=
  { reqArticle with ptype := some "image", file := some "pic.PNG" }

/-- A valid image request whose attached file has a disallowed extension. -/
def reqTxt : AddReq :=
  { reqArticle with ptype := some "image", file := some "x.txt" }

/-- A valid request with an unrecognised type tag. -/
def reqUnknown : AddReq :=
  { reqArticle with ptype := some "weird" }

/-- A valid request with the title field absent. -/
def reqNoTitle : AddReq :=
  { reqArticle with title := none }

/-- A stored post with id "p1". -/
def postA : Post :=
  { id := "p1", title := "old", author := "B", date := "Dec 31, 2025",
    ptype := some "article", banner := "b", content := some "c",
    mediaType := "none", mediaUrl := "" }

/-- A stored post with id "dup". -/
def postDup : Post :=
  { id := "dup", title := "first", author := "B", date := "Dec 31, 2025",
    ptype := some "article", banner := "b", content := some "c",
    mediaType := "none", mediaUrl := "" }

/-- A second, distinct stored post sharing id "dup". -/
def postDup2 : Post :=
  { postDup with title := "second" }

/-! ## Helper lemmas -/

theorem allowed_file_ne_empty {fn : String} (h : allowed_file fn = true) :
    fn ≠ "" := by
  intro he
  subst he
  exact absurd h (by decide)

theorem upload_url_ne_empty (a b c d : String) :
    a ++ (b ++ c ++ "." ++ d) ≠ "" := by
  intro h
  have h2 : (a ++ (b ++ c ++ "." ++ d)).data = [] := by rw [h]
  rw [String.data_append, String.data_append, String.data_append,
    String.data_append] at h2
  simp at h2

theorem writeOf_content (p : Post) (fetched : Option (List Post × String)) :
    (writeOf p fetched).content = p :: fetchedList fetched := by
  rcases fetched with _ | ⟨l, sha⟩ <;> rfl

theorem add_post_valid (cfg : Config) (gen : Gen) (req : AddReq)
    (fetched : Option (List Post × String))
    (h1 : req.title.getD "" ≠ "") (h2 : req.author.getD "" ≠ "") :
    add_post cfg gen req fetched =
      { status := 200
        mediaWrite := uploadPathOf cfg gen req.file
        storeWrite := some (writeOf (newPostOf cfg gen req) fetched)
        post := some (newPostOf cfg gen req) } := by
  simp [add_post, h1, h2]

/-! ## Claim theorems -/

/-- C5: for every valid create request with `type == "article"`, the stored
post has `mediaUrl == ""` and `mediaType == "none"`. -/
theorem add_post_article (cfg : Config) (gen : Gen) (req : AddReq)
    (fetched : Option (List Post × String))
    (h1 : req.title.getD "" ≠ "") (h2 : req.author.getD "" ≠ "")
    (hty : req.ptype = some "article") :
    ∃ p, (add_post cfg gen req fetched).post = some p ∧
      p.mediaUrl = "" ∧ p.mediaType = "none" := by
  rw [add_post_valid cfg gen req fetched h1 h2]
  exact ⟨newPostOf cfg gen req, rfl, by simp [newPostOf, mediaConfigOf, hty]⟩

/-- C4: for every valid create request with `type` in
{`video`, `youtube`, `pdf`}, the stored post's `mediaUrl` equals the
caller-supplied `mediaUrl` form field (independent of any uploaded file,
over which the statement quantifies), and `mediaType` is `"youtube"` when
`type` is `video`/`youtube` and `"pdf"` when `type` is `pdf`. -/
theorem add_post_link_types (cfg : Config) (gen : Gen) (req : AddReq)
    (fetched : Option (List Post × String)) (u : String)
    (h1 : req.title.getD "" ≠ "") (h2 : req.author.getD "" ≠ "")
    (hty : req.ptype = some "video" ∨ req.ptype = some "youtube" ∨
      req.ptype = some "pdf")
    (hu : req.mediaUrl = some u) :
    ∃ p, (add_post cfg gen req fetched).post = some p ∧
      p.mediaUrl = u ∧
      p.mediaType = (if req.ptype = some "pdf" then "pdf" else "youtube") := by
  rw [add_post_valid cfg gen req fetched h1 h2]
  refine ⟨newPostOf cfg gen req, rfl, ?_⟩
  rcases hty with h | h | h <;> simp [newPostOf, mediaConfigOf, h, hu]

/-- C6: every create request with `title` or `author` absent or empty gets
status 400 and neither a store write nor a media upload happens. -/
theorem add_post_missing_required (cfg : Config) (gen : Gen) (req : AddReq)
    (fetched : Option (List Post × String))
    (h : req.title = none ∨ req.title = some "" ∨
      req.author = none ∨ req.author = some "") :
    add_post cfg gen req fetched =
      { status := 400, mediaWrite := none, storeWrite := none, post := none } := by
  rcases h with h | h | h | h <;> simp [add_post, h]

/-- C8: for every valid create request whose file is absent or fails
`allowed_file` (no extension, or extension outside the case-insensitive
allow-list), no media file is written, the request still succeeds
(status 200), and the stored post's banner is the fixed fallback
placeholder. -/
theorem add_post_upload_skipped (cfg : Config) (gen : Gen) (req : AddReq)
    (fetched : Option (List Post × String))
    (h1 : req.title.getD "" ≠ "") (h2 : req.author.getD "" ≠ "")
    (hfile : req.file = none ∨
      ∃ fn, req.file = some fn ∧ allowed_file fn = false) :
    (add_post cfg gen req fetched).status = 200 ∧
    (add_post cfg gen req fetched).mediaWrite = none ∧
    ∃ p, (add_post cfg gen req fetched).post = some p ∧
      p.banner = FALLBACK_BANNER := by
  have hup : uploadPathOf cfg gen req.file = none := by
    rcases hfile with h | ⟨fn, hf, hnot⟩
    · simp [uploadPathOf, h]
    · simp [uploadPathOf, hf, hnot]
  rw [add_post_valid cfg gen req fetched h1 h2]
  exact ⟨rfl, hup, newPostOf cfg gen req, rfl, by simp [newPostOf, bannerUrlOf, hup]⟩

/-- C10: for every valid create request whose `type` is absent or outside
{`article`, `image`, `video`, `youtube`, `pdf`}, the request is not
rejected (status 200) and the stored post carries the submitted type value
unvalidated, with `mediaType == "none"` and `mediaUrl == ""`. -/
theorem add_post_unknown_type (cfg : Config) (gen : Gen) (req : AddReq)
    (fetched : Option (List Post × String))
    (h1 : req.title.getD "" ≠ "") (h2 : req.author.getD "" ≠ "")
    (hty : req.ptype = none ∨ ∃ s, req.ptype = some s ∧
      s ∉ (["article", "image", "video", "youtube", "pdf"] : List String)) :
    (add_post cfg gen req fetched).status = 200 ∧
    ∃ p, (add_post cfg gen req fetched).post = some p ∧
      p.ptype = req.ptype ∧ p.mediaType = "none" ∧ p.mediaUrl = "" := by
  have hmc : mediaConfigOf (bannerUrlOf cfg gen req.file) req.ptype
      (req.mediaUrl.getD "") = ("", "none") := by
    rcases hty with h | ⟨s, hs, hmem⟩
    · simp [mediaConfigOf, h]
    · obtain ⟨hA, hI, hV, hY, hP⟩ : s ≠ "article" ∧ s ≠ "image" ∧
        s ≠ "video" ∧ s ≠ "youtube" ∧ s ≠ "pdf" := by
        simpa [not_or] using hmem
      simp [mediaConfigOf, hs, hA, hI, hV, hY, hP]
  rw [add_post_valid cfg gen req fetched h1 h2]
  exact ⟨rfl, newPostOf cfg gen req, rfl, by simp [newPostOf, hmc]⟩

/-- C9: when `add_post`'s fetch of the store file fails (file absent or
content malformed) the handler proceeds as a first-ever write — the store
is written with `create_file` containing only the new post; when the fetch
succeeds the store is written with `update_file` using the fetched sha. -/
theorem add_post_write_mode (cfg : Config) (gen : Gen) (req : AddReq)
    (h1 : req.title.getD "" ≠ "") (h2 : req.author.getD "" ≠ "") :
    (add_post cfg gen req none).storeWrite =
      some (.create [newPostOf cfg gen req]) ∧
    ∀ old sha, (add_post cfg gen req (some (old, sha))).storeWrite =
      some (.update (newPostOf cfg gen req :: old) sha) := by
  constructor
  · rw [add_post_valid cfg gen req none h1 h2]; rfl
  · intro old sha
    rw [add_post_valid cfg gen req (some (old, sha)) h1 h2]; rfl

/-- Splitting a store's length by whether a record's id matches. -/
theorem filter_id_length (i : String) (l : List Post) :
    (l.filter (fun p => p.id != i)).length +
      (l.filter (fun p => p.id == i)).length = l.length := by
  induction l with
  | nil => rfl
  | cons p l ih =>
      by_cases h : p.id = i <;> simp [List.filter_cons, h] <;> omega

/-- C2 amended: for every delete-post request whose id is borne by exactly
one record of the stored array, the request succeeds, the written store's
length equals the original length minus 1, and no remaining record has
that id.  (The handler filters out every matching record, so with
duplicated ids the length drops by the number of matches.) -/
theorem delete_post_unique_id (i : String) (store : List Post) (sha : String)
    (hi : i ≠ "")
    (huniq : (store.filter (fun p => p.id == i)).length = 1) :
    (delete_post (some i) store sha).status = 200 ∧
    ∃ w, (delete_post (some i) store sha).storeWrite = some w ∧
      w.content.length = store.length - 1 ∧
      ∀ p ∈ w.content, p.id ≠ i := by
  have hlen := filter_id_length i store
  rw [huniq] at hlen
  have hne : (store.filter (fun p => p.id != i)).length ≠ store.length := by
    omega
  have hres : delete_post (some i) store sha =
      { status := 200, body := "Post deleted successfully",
        storeWrite := some (.update (store.filter (fun p => p.id != i)) sha) } := by
    simp [delete_post, hi, hne]
  refine ⟨by rw [hres],
    .update (store.filter (fun p => p.id != i)) sha, by rw [hres], ?_, ?_⟩
  · show (store.filter (fun p => p.id != i)).length = store.length - 1
    omega
  · intro p hp
    have := List.of_mem_filter hp
    simpa using this

/-- C2 counterexample: with two distinct stored records sharing id "dup",
deleting "dup" succeeds but the handler filters out both records — the
written store is empty, so its length is not the original length minus 1. -/
theorem delete_post_duplicate_counterexample :
    (delete_post (some "dup") [postDup, postDup2] "sha").status = 200 ∧
    ((delete_post (some "dup") [postDup, postDup2] "sha").storeWrite.map
      StoreWrite.content) = some [] ∧
    ¬ ([] : List Post).length = [postDup, postDup2].length - 1 := by decide

/-- C3 counterexample: a create request with valid title and author,
`type = "image"` and an attached file `x.txt` (extension outside the
allow-list) succeeds, but no media file is written and the stored post's
`mediaUrl` is the fixed fallback placeholder, not the constructed upload
URL for this request. -/
theorem add_post_image_txt_counterexample :
    (add_post cfgW genW reqTxt (some ([], "sha"))).status = 200 ∧
    ((add_post cfgW genW reqTxt (some ([], "sha"))).post.map Post.mediaType) =
      some "image" ∧
    ((add_post cfgW genW reqTxt (some ([], "sha"))).post.map Post.mediaUrl) =
      some FALLBACK_BANNER ∧
    (add_post cfgW genW reqTxt (some ([], "sha"))).mediaWrite = none ∧
    FALLBACK_BANNER ≠
      cfgW.websiteUrl ++ (cfgW.uploadFolder ++ genW.fileHex ++ "." ++ "txt") := by
  decide

/-- C3 amended: for every valid create request with `type = "image"` and an
attached file whose name passes the extension allow-list, the stored post
has `mediaType = "image"`, `mediaUrl = banner`, and both equal the
constructed upload URL: website base URL ++ upload folder ++ generated
unique file name (fileHex ++ "." ++ lower-cased extension); the media file
is written at the corresponding repository path. -/
theorem add_post_image_allowed (cfg : Config) (gen : Gen) (req : AddReq)
    (fetched : Option (List Post × String)) (fn : String)
    (h1 : req.title.getD "" ≠ "") (h2 : req.author.getD "" ≠ "")
    (hty : req.ptype = some "image")
    (hf : req.file = some fn) (hok : allowed_file fn = true) :
    ∃ p, (add_post cfg gen req fetched).post = some p ∧
      p.mediaType = "image" ∧ p.mediaUrl = p.banner ∧
      p.banner = cfg.websiteUrl ++ (cfg.uploadFolder ++ gen.fileHex ++ "." ++
        String.mk (lowerStr ((extAfterLastDot fn.data).getD []))) ∧
      (add_post cfg gen req fetched).mediaWrite =
        some (cfg.uploadFolder ++ gen.fileHex ++ "." ++
          String.mk (lowerStr ((extAfterLastDot fn.data).getD []))) := by
  have hne := allowed_file_ne_empty hok
  have hup : uploadPathOf cfg gen req.file =
      some (cfg.uploadFolder ++ gen.fileHex ++ "." ++
        String.mk (lowerStr ((extAfterLastDot fn.data).getD []))) := by
    simp [uploadPathOf, hf, hne, hok]
  have hbn : bannerUrlOf cfg gen req.file =
      cfg.websiteUrl ++ (cfg.uploadFolder ++ gen.fileHex ++ "." ++
        String.mk (lowerStr ((extAfterLastDot fn.data).getD []))) := by
    simp only [bannerUrlOf, hup]
    rw [if_neg (upload_url_ne_empty _ _ _ _)]
  rw [add_post_valid cfg gen req fetched h1 h2]
  refine ⟨newPostOf cfg gen req, rfl, ?_, ?_, ?_, hup⟩
  · simp [newPostOf, mediaConfigOf, hty]
  · simp [newPostOf, mediaConfigOf, hty]
  · simp only [newPostOf]
    exact hbn

/-- C7: every delete-post request whose id is supplied but matches no
stored record gets status 404 with body "Post not found" and no store
write is made. -/
theorem delete_post_not_found (i : String) (store : List Post) (sha : String)
    (hi : i ≠ "") (hnone : ∀ p ∈ store, p.id ≠ i) :
    delete_post (some i) store sha =
      { status := 404, body := "Post not found", storeWrite := none } := by
  have hfilter : store.filter (fun p => p.id != i) = store :=
    List.filter_eq_self.mpr (by intro p hp; simpa using hnone p hp)
  simp [delete_post, hi, hfilter]

/-- C1: for every successful add-post request, the array written back to
the store is the newly built post prepended to the array fetched at the
start of the mutation (the new post at index 0, every previously stored
record following in its prior order), and the new post carries the
submitted title, author, content and type together with the
server-generated id and date. -/
theorem add_post_round_trip (cfg : Config) (gen : Gen) (req : AddReq)
    (fetched : Option (List Post × String)) (t a : String)
    (ht : req.title = some t) (ht0 : t ≠ "")
    (ha : req.author = some a) (ha0 : a ≠ "") :
    ∃ w, (add_post cfg gen req fetched).storeWrite = some w ∧
      w.content = newPostOf cfg gen req :: fetchedList fetched ∧
      (newPostOf cfg gen req).title = t ∧
      (newPostOf cfg gen req).author = a ∧
      (newPostOf cfg gen req).content = req.content ∧
      (newPostOf cfg gen req).ptype = req.ptype ∧
      (newPostOf cfg gen req).id = gen.postId ∧
      (newPostOf cfg gen req).date = gen.date := by
  have h1 : req.title.getD "" ≠ "" := by simp [ht, ht0]
  have h2 : req.author.getD "" ≠ "" := by simp [ha, ha0]
  rw [add_post_valid cfg gen req fetched h1 h2]
  exact ⟨writeOf (newPostOf cfg gen req) fetched, rfl,
    writeOf_content _ _, by simp [newPostOf, ht], by simp [newPostOf, ha],
    rfl, rfl, rfl, rfl⟩

/-! ## Witnesses: the claim theorems applied at concrete inputs -/

/-- Witness for C5 at a concrete article request. -/
theorem add_post_article_witness :
    ∃ p, (add_post cfgW genW reqArticle (some ([postA], "sha"))).post = some p ∧
      p.mediaUrl = "" ∧ p.mediaType = "none" :=
  add_post_article cfgW genW reqArticle (some ([postA], "sha"))
    (by decide) (by decide) rfl

/-- Witness for C4 at a concrete video request. -/
theorem add_post_link_types_witness :
    ∃ p, (add_post cfgW genW reqVideo (some ([postA], "sha"))).post = some p ∧
      p.mediaUrl = "https://youtu.be/x" ∧
      p.mediaType = (if reqVideo.ptype = some "pdf" then "pdf" else "youtube") :=
  add_post_link_types cfgW genW reqVideo (some ([postA], "sha"))
    "https://youtu.be/x" (by decide) (by decide) (Or.inl rfl) rfl

/-- Witness for C6 at a request with no title. -/
theorem add_post_missing_required_witness :
    add_post cfgW genW reqNoTitle (some ([postA], "sha")) =
      { status := 400, mediaWrite := none, storeWrite := none, post := none } :=
  add_post_missing_required cfgW genW reqNoTitle (some ([postA], "sha"))
    (Or.inl rfl)

/-- Witness for C8 at a request with a disallowed file extension. -/
theorem add_post_upload_skipped_witness :
    (add_post cfgW genW reqTxt (some ([postA], "sha"))).status = 200 ∧
    (add_post cfgW genW reqTxt (some ([postA], "sha"))).mediaWrite = none ∧
    ∃ p, (add_post cfgW genW reqTxt (some ([postA], "sha"))).post = some p ∧
      p.banner = FALLBACK_BANNER :=
  add_post_upload_skipped cfgW genW reqTxt (some ([postA], "sha"))
    (by decide) (by decide) (Or.inr ⟨"x.txt", rfl, by decide⟩)

/-- Witness for C10 at a request with an unrecognised type. -/
theorem add_post_unknown_type_witness :
    (add_post cfgW genW reqUnknown (some ([postA], "sha"))).status = 200 ∧
    ∃ p, (add_post cfgW genW reqUnknown (some ([postA], "sha"))).post = some p ∧
      p.ptype = reqUnknown.ptype ∧ p.mediaType = "none" ∧ p.mediaUrl = "" :=
  add_post_unknown_type cfgW genW reqUnknown (some ([postA], "sha"))
    (by decide) (by decide) (Or.inr ⟨"weird", rfl, by decide⟩)

/-- Witness for C9: both fetch outcomes at a concrete request. -/
theorem add_post_write_mode_witness :
    (add_post cfgW genW reqArticle none).storeWrite =
      some (.create [newPostOf cfgW genW reqArticle]) ∧
    (add_post cfgW genW reqArticle (some ([postA], "sha"))).storeWrite =
      some (.update (newPostOf cfgW genW reqArticle :: [postA]) "sha") :=
  ⟨(add_post_write_mode cfgW genW reqArticle (by decide) (by decide)).1,
   (add_post_write_mode cfgW genW reqArticle (by decide) (by decide)).2
     [postA] "sha"⟩

/-- Witness for C1 at a concrete request over a one-element store. -/
theorem add_post_round_trip_witness :
    ∃ w, (add_post cfgW genW reqArticle (some ([postA], "sha"))).storeWrite =
        some w ∧
      w.content = newPostOf cfgW genW reqArticle ::
        fetchedList (some ([postA], "sha")) ∧
      (newPostOf cfgW genW reqArticle).title = "T" ∧
      (newPostOf cfgW genW reqArticle).author = "A" ∧
      (newPostOf cfgW genW reqArticle).content = reqArticle.content ∧
      (newPostOf cfgW genW reqArticle).ptype = reqArticle.ptype ∧
      (newPostOf cfgW genW reqArticle).id = genW.postId ∧
      (newPostOf cfgW genW reqArticle).date = genW.date :=
  add_post_round_trip cfgW genW reqArticle (some ([postA], "sha")) "T" "A"
    rfl (by decide) rfl (by decide)

/-- Witness for C2 (amended) at a store holding exactly one match. -/
theorem delete_post_unique_id_witness :
    (delete_post (some "p1") [postA] "sha").status = 200 ∧
    ∃ w, (delete_post (some "p1") [postA] "sha").storeWrite = some w ∧
      w.content.length = [postA].length - 1 ∧
      ∀ p ∈ w.content, p.id ≠ "p1" :=
  delete_post_unique_id "p1" [postA] "sha" (by decide) (by decide)

/-- Witness for C7 at a store not holding the requested id. -/
theorem delete_post_not_found_witness :
    delete_post (some "zz") [postA] "sha" =
      { status := 404, body := "Post not found", storeWrite := none } :=
  delete_post_not_found "zz" [postA] "sha" (by decide) (by decide)

/-- Witness for C3 (amended) at an image request with an allowed file. -/
theorem add_post_image_allowed_witness :
    ∃ p, (add_post cfgW genW reqImage (some ([postA], "sha"))).post = some p ∧
      p.mediaType = "image" ∧ p.mediaUrl = p.banner ∧
      p.banner = cfgW.websiteUrl ++ (cfgW.uploadFolder ++ genW.fileHex ++
        "." ++ String.mk (lowerStr ((extAfterLastDot "pic.PNG".data).getD []))) ∧
      (add_post cfgW genW reqImage (some ([postA], "sha"))).mediaWrite =
        some (cfgW.uploadFolder ++ genW.fileHex ++ "." ++
          String.mk (lowerStr ((extAfterLastDot "pic.PNG".data).getD []))) :=
  add_post_image_allowed cfgW genW reqImage (some ([postA], "sha")) "pic.PNG"
    (by decide) (by decide) rfl rfl (by decide)

end MaceEU
